import Mathlib

/-!
Verification model of the `python-repl` MCP server (`src/python-repl/server.py`).

The server is shallowly embedded as follows.

* Submitted code is interpreted by a small executable model of the Python
  subset the server exercises: one statement per top-level line, where a
  statement is blank, an assignment `x = e`, or an expression statement, and
  an expression is an integer literal, `None`, a name, a sum `a + b`, a call
  `print(e)`, or `pd.DataFrame()`.  `exec` compiles every line first and then
  runs the statements in order (mutating the namespace in place), and `eval`
  parses a single expression, rejecting statements and leading indentation,
  mirroring CPython behaviour on this subset.
* The namespace is an association list of bindings, seeded exactly as
  `PythonREPLServer.__init__` / the reset branch seed it.
* `io.StringIO` capture with `redirect_stdout`/`redirect_stderr` is modelled
  by an explicit channel state (`Chan`) in the world: statement execution runs
  while the channels are redirected and its output is returned as the
  captured buffer text; the trailing-expression `eval` runs after the `with`
  block has restored the channels, so its output is routed to the real stream.
* Response payloads are the structured JSON documents passed to
  `json.dumps`; `json.dumps` partiality (TypeError on unserializable objects
  such as a DataFrame nested in a list) is modelled by `toJson` returning an
  error that the surrounding `try`/`except` turns into an error envelope.
* `subprocess.run` outcomes and import availability for `install_package`
  are supplied by an `Env` parameter, and the handler additionally returns
  the list of argv vectors it invoked, so that ordering claims about shell
  invocations can be stated.
-/

/-! ## String helpers (Python semantics, executable over `String.data`) -/

/-- Characters treated as whitespace by Python `str.strip()`. -/
def isPyWs (c : Char) : Bool :=
  c = ' ' || c = Char.ofNat 9 || c = Char.ofNat 10 ||
  c = Char.ofNat 13 || c = Char.ofNat 11 || c = Char.ofNat 12

/-- Python `str.strip()`: drop leading and trailing whitespace. -/
def pyStrip (s : String) : String :=
  String.mk (((s.data.dropWhile isPyWs).reverse.dropWhile isPyWs).reverse)

/-- Split a character list on a separator character, keeping empty pieces,
as Python `str.split(sep)` does for a one-character separator. -/
def splitOnChar (sep : Char) : List Char → List (List Char)
  | [] => [[]]
  | c :: cs =>
    let r := splitOnChar sep cs
    if c = sep then [] :: r
    else
      match r with
      | [] => [[c]]
      | h :: t => (c :: h) :: t

/-- Python `code.split('\n')`. -/
def pyLines (s : String) : List String :=
  (splitOnChar (Char.ofNat 10) s.data).map String.mk

def strStartsWith (s pre : String) : Bool := pre.data.isPrefixOf s.data

def strEndsWith (s suf : String) : Bool := suf.data.isSuffixOf s.data

/-- A single-quote character, as used by Python `repr` and error messages. -/
def squote : String := String.singleton (Char.ofNat 39)

/-! ## Python values, namespace, errors -/

/-- Runtime values of the modelled Python subset.  DataFrame rows are kept in
row-major order; a module object carries only its name. -/
inductive PyVal where
  | intV (n : Int)
  | strV (s : String)
  | noneV
  | listV (xs : List PyVal)
  | dictV (kvs : List (String × PyVal))
  | dfV (columns : List String) (rows : List (List PyVal))
  | moduleV (name : String)

/-- The session namespace: `self.global_namespace`, an insertion-ordered
mapping from identifier to value. -/
def Namespace : Type := List (String × PyVal)

def nsLookup : Namespace → String → Option PyVal
  | [], _ => Option.none
  | (k, v) :: rest, x => if x = k then some v else nsLookup rest x

def nsInsert (x : String) (v : PyVal) : Namespace → Namespace
  | [] => [(x, v)]
  | (k, w) :: rest => if x = k then (x, v) :: rest else (k, w) :: nsInsert x v rest

/-- The namespace seeded by `__init__` and by the reset branch:
`__builtins__` plus the tabular-data alias `pd`. -/
def initialNamespace : Namespace :=
  [("__builtins__", PyVal.moduleV "builtins"), ("pd", PyVal.moduleV "pandas")]

/-- Exceptions the modelled subset can raise. -/
inductive PyErr where
  | nameError (x : String)
  | syntaxError
  | indentationError
  | typeError (msg : String)
  | attributeError (msg : String)

def pyErrText : PyErr → String
  | .nameError x => "NameError: name " ++ squote ++ x ++ squote ++ " is not defined"
  | .syntaxError => "SyntaxError: invalid syntax"
  | .indentationError => "IndentationError: unexpected indent"
  | .typeError m => "TypeError: " ++ m
  | .attributeError m => "AttributeError: " ++ m

/-- Model of `traceback.format_exc()`.  The stack-frame lines of a real trace
are environment dependent (file paths, line numbers); the model keeps the
header and the final exception line, the stable parts of the trace. -/
def formatExc (e : PyErr) : String :=
  "Traceback (most recent call last):\n" ++ pyErrText e ++ "\n"

def pyTypeName : PyVal → String
  | .intV _ => "int"
  | .strV _ => "str"
  | .noneV => "NoneType"
  | .listV _ => "list"
  | .dictV _ => "dict"
  | .dfV _ _ => "DataFrame"
  | .moduleV _ => "module"

/-! ## repr / str rendering -/

mutual

/-- Python `repr` on the modelled values.  The pandas table-text rendering of
a DataFrame is environment dependent (column widths, index) and is abstracted
by a placeholder; no claim depends on it. -/
def pyRepr : PyVal → String
  | .intV n => toString n
  | .strV s => squote ++ s ++ squote
  | .noneV => "None"
  | .listV xs => "[" ++ pyReprList xs ++ "]"
  | .dictV kvs => "\x7b" ++ pyReprFields kvs ++ "\x7d"
  | .dfV _ _ => "<DataFrame>"
  | .moduleV n => "<module " ++ squote ++ n ++ squote ++ ">"

def pyReprList : List PyVal → String
  | [] => ""
  | [x] => pyRepr x
  | x :: xs => pyRepr x ++ ", " ++ pyReprList xs

def pyReprFields : List (String × PyVal) → String
  | [] => ""
  | [(k, v)] => squote ++ k ++ squote ++ ": " ++ pyRepr v
  | (k, v) :: kvs => squote ++ k ++ squote ++ ": " ++ pyRepr v ++ ", " ++ pyReprFields kvs

end

/-- Python `str()`, as used by `print`. -/
def pyStr : PyVal → String
  | .intV n => toString n
  | .strV s => s
  | v => pyRepr v

/-! ## JSON documents and `json.dumps` serializability -/

/-- Structured JSON documents, the payloads handed to `json.dumps`. -/
inductive JVal where
  | null
  | str (s : String)
  | num (n : Int)
  | arr (xs : List JVal)
  | obj (fields : List (String × JVal))

mutual

/-- JSON encoding of a Python value, as `json.dumps` performs it.  Values
with no JSON encoding (DataFrames, modules) raise `TypeError`, which the
server catches like any other execution failure. -/
def toJson : PyVal → Except PyErr JVal
  | .intV n => .ok (.num n)
  | .strV s => .ok (.str s)
  | .noneV => .ok .null
  | .listV xs => do
    let js ← toJsonList xs
    .ok (.arr js)
  | .dictV kvs => do
    let js ← toJsonFields kvs
    .ok (.obj js)
  | v => .error (.typeError ("Object of type " ++ pyTypeName v ++ " is not JSON serializable"))

def toJsonList : List PyVal → Except PyErr (List JVal)
  | [] => .ok []
  | x :: xs => do
    let j ← toJson x
    let js ← toJsonList xs
    .ok (j :: js)

def toJsonFields : List (String × PyVal) → Except PyErr (List (String × JVal))
  | [] => .ok []
  | (k, v) :: kvs => do
    let j ← toJson v
    let js ← toJsonFields kvs
    .ok ((k, j) :: js)

end

/-! ## Parsing the modelled Python subset -/

def isIdentStart (c : Char) : Bool := c.isAlpha || c = Char.ofNat 95

def isIdentChar (c : Char) : Bool := c.isAlphanum || c = Char.ofNat 95

/-- Python keywords (not usable as plain names). -/
def pyKeywords : List String :=
  ["False", "None", "True", "and", "as", "assert", "async", "await", "break",
   "class", "continue", "def", "del", "elif", "else", "except", "finally",
   "for", "from", "global", "if", "in", "is", "lambda", "nonlocal",
   "not", "or", "pass", "raise", "return", "try", "while", "with", "yield"]

def isValidIdent (s : String) : Bool :=
  (match s.data with
   | [] => false
   | c :: cs => isIdentStart c && cs.all isIdentChar) &&
  ¬ (pyKeywords.contains s || s = "import")

/-- Parse a decimal digit run. -/
def parseDigitsAux : List Char → Nat → Option Nat
  | [], acc => some acc
  | c :: cs, acc =>
    if c.isDigit then parseDigitsAux cs (acc * 10 + (c.toNat - 48)) else Option.none

/-- Parse an integer literal, with an optional leading minus sign. -/
def parseIntLit (s : String) : Option Int :=
  match s.data with
  | [] => Option.none
  | c :: cs =>
    if c = '-' then
      match cs with
      | [] => Option.none
      | _ => (parseDigitsAux cs 0).map (fun n => -(n : Int))
    else (parseDigitsAux s.data 0).map (fun n => (n : Int))

/-- Abstract syntax of the modelled expressions. -/
inductive Expr where
  | intLit (n : Int)
  | noneLit
  | name (x : String)
  | add (a b : Expr)
  | printCall (e : Expr)
  | pdDataFrame

/-- Split on the three-character separator `" + "`, as Python
`str.split(" + ")` does. -/
def splitPlusChars : List Char → List (List Char)
  | [] => [[]]
  | ' ' :: '+' :: ' ' :: rest => [] :: splitPlusChars rest
  | c :: rest =>
    match splitPlusChars rest with
    | [] => [[c]]
    | h :: t => (c :: h) :: t

def printInner (t : String) : String := String.mk ((t.data.drop 6).dropLast)

/-- Recognize `print(<argument>)` where the argument contains no further
parentheses (nested calls are outside the modelled subset). -/
def isPrintForm (t : String) : Bool :=
  strStartsWith t "print(" && strEndsWith t ")" &&
  (printInner t).data.all (fun c => c ≠ '(' && c ≠ ')')

/-- Fuel-indexed expression parser; the fuel only bounds recursion depth and
`parseExpr` always supplies enough. -/
def parseExprF : Nat → String → Except PyErr Expr
  | 0, _ => .error .syntaxError
  | fuel + 1, s =>
    let t := pyStrip s
    if t = "pd.DataFrame()" then .ok .pdDataFrame
    else if t = "None" then .ok .noneLit
    else if isValidIdent t then .ok (.name t)
    else
      match parseIntLit t with
      | some n => .ok (.intLit n)
      | Option.none =>
        if isPrintForm t then (parseExprF fuel (printInner t)).map Expr.printCall
        else
          match splitPlusChars t.data with
          | [] => .error .syntaxError
          | [_] => .error .syntaxError
          | part :: parts => do
            let e0 ← parseExprF fuel (String.mk part)
            let es ← parts.mapM (fun p => parseExprF fuel (String.mk p))
            .ok (es.foldl Expr.add e0)

def parseExpr (s : String) : Except PyErr Expr := parseExprF (s.length + 1) s

/-- Model of `eval(source, ...)` parsing: an empty or whitespace-only source
is a syntax error, leading indentation is an indentation error, and otherwise
the source must be a single expression. -/
def parseTopExpr (s : String) : Except PyErr Expr :=
  if pyStrip s = "" then .error .syntaxError
  else
    match s.data with
    | [] => .error .syntaxError
    | c :: _ => if isPyWs c then .error .indentationError else parseExpr s

/-- Abstract syntax of the modelled statements (one per top-level line). -/
inductive Stmt where
  | blank
  | assign (x : String) (e : Expr)
  | exprStmt (e : Expr)

/-- Split a line at the first `" = "` separator, yielding target and
right-hand side of an assignment. -/
def splitAssignChars : List Char → Option (List Char × List Char)
  | [] => Option.none
  | ' ' :: '=' :: ' ' :: rest => some ([], rest)
  | c :: rest => (splitAssignChars rest).map (fun p => (c :: p.1, p.2))

/-- Parse one top-level line as a statement.  Indented non-blank lines are
rejected as CPython rejects an unexpected indent; compound statements are
outside the modelled subset. -/
def parseStmt (line : String) : Except PyErr Stmt :=
  if pyStrip line = "" then .ok .blank
  else
    match line.data with
    | [] => .ok .blank
    | c :: _ =>
      if isPyWs c then .error .indentationError
      else
        let t := pyStrip line
        match splitAssignChars t.data with
        | some (lhs, rhs) =>
          let x := String.mk lhs
          if isValidIdent x then (parseExpr (String.mk rhs)).map (Stmt.assign x)
          else .error .syntaxError
        | Option.none => (parseExpr t).map Stmt.exprStmt

/-- Model of `exec` compilation: the whole source is parsed before anything
runs, so a syntax error anywhere prevents all execution. -/
def compilePy (code : String) : Except PyErr (List Stmt) :=
  (pyLines code).mapM parseStmt

/-- The line the server re-evaluates:
`last_line = code.strip().split('\n')[-1]`. -/
def lastLine (code : String) : String :=
  (pyLines (pyStrip code)).getLastD ""

/-! ## Evaluation -/

/-- Evaluate an expression against the namespace, returning the text it
writes to the current standard-output stream together with its value or the
exception it raises (output written before the exception is kept). -/
def evalExpr : Expr → Namespace → String × Except PyErr PyVal
  | .intLit n, _ => ("", .ok (.intV n))
  | .noneLit, _ => ("", .ok .noneV)
  | .name x, ns =>
    match nsLookup ns x with
    | some v => ("", .ok v)
    | Option.none => ("", .error (.nameError x))
  | .pdDataFrame, ns =>
    match nsLookup ns "pd" with
    | some (.moduleV "pandas") => ("", .ok (.dfV [] []))
    | some v =>
      ("", .error (.attributeError (squote ++ pyTypeName v ++ squote ++
        " object has no attribute " ++ squote ++ "DataFrame" ++ squote)))
    | Option.none => ("", .error (.nameError "pd"))
  | .printCall e, ns =>
    let (o, r) := evalExpr e ns
    match r with
    | .error err => (o, .error err)
    | .ok v => (o ++ pyStr v ++ "\n", .ok .noneV)
  | .add a b, ns =>
    let (o1, r1) := evalExpr a ns
    match r1 with
    | .error err => (o1, .error err)
    | .ok v1 =>
      let (o2, r2) := evalExpr b ns
      match r2 with
      | .error err => (o1 ++ o2, .error err)
      | .ok v2 =>
        match v1, v2 with
        | .intV m, .intV n => (o1 ++ o2, .ok (.intV (m + n)))
        | .strV s, .strV t => (o1 ++ o2, .ok (.strV (s ++ t)))
        | .listV xs, .listV ys => (o1 ++ o2, .ok (.listV (xs ++ ys)))
        | u, w =>
          (o1 ++ o2, .error (.typeError ("unsupported operand type(s) for +: " ++
            squote ++ pyTypeName u ++ squote ++ " and " ++
            squote ++ pyTypeName w ++ squote)))

/-- Run one statement: the updated namespace, the output written, and the
exception raised, if any.  Assignment mutates the namespace only when the
right-hand side evaluates successfully. -/
def runStmt : Stmt → Namespace → Namespace × String × Option PyErr
  | .blank, ns => (ns, "", Option.none)
  | .exprStmt e, ns =>
    let (o, r) := evalExpr e ns
    match r with
    | .ok _ => (ns, o, Option.none)
    | .error err => (ns, o, some err)
  | .assign x e, ns =>
    let (o, r) := evalExpr e ns
    match r with
    | .ok v => (nsInsert x v ns, o, Option.none)
    | .error err => (ns, o, some err)

/-- Run statements in order, stopping at the first exception; the namespace
mutations and output of the statements that already completed are kept, as
`exec` against a shared namespace keeps them. -/
def runStmts : List Stmt → Namespace → Namespace × String × Option PyErr
  | [], ns => (ns, "", Option.none)
  | s :: rest, ns =>
    match runStmt s ns with
    | (ns1, o1, some err) => (ns1, o1, some err)
    | (ns1, o1, Option.none) =>
      let (ns2, o2, e2) := runStmts rest ns1
      (ns2, o1 ++ o2, e2)

/-- Model of `eval(last_line, self.global_namespace)`: parse the line as a
standalone expression and evaluate it.  The output component is what the
evaluation writes to the current standard-output stream. -/
def evalLine (line : String) (ns : Namespace) : String × Except PyErr PyVal :=
  match parseTopExpr line with
  | .error e => ("", .error e)
  | .ok e => evalExpr e ns

/-! ## Response content, world state, output channels -/

/-- One returned content block: either a text block whose payload is a JSON
document produced by `json.dumps`, or a plain prose text block (only the
reset confirmation). -/
inductive Content where
  | json (payload : JVal)
  | plain (text : String)

/-- The error envelope built by the `except` branch of `execute_python`:
`{"error": f"Error executing code:\n{traceback.format_exc()}"}`. -/
def errorEnvelope (e : PyErr) : Content :=
  .json (.obj [("error", .str ("Error executing code:\n" ++ formatExc e))])

/-- Where `sys.stdout` / `sys.stderr` currently point: the real stream, or
the per-call `io.StringIO` buffer installed by `redirect_stdout` /
`redirect_stderr`. -/
inductive Chan where
  | real
  | redirected

/-- Process/session state threaded through calls: the namespace, the current
standard-output and standard-error channel bindings, and the text that has
reached the real standard-output stream. -/
structure World where
  ns : Namespace
  sysStdout : Chan
  sysStderr : Chan
  realOut : String

/-- Write text to the current standard-output channel.  With the channels
restored (the only state in which the server evaluates the trailing
expression) the text reaches the real stream; text written while redirected
is the captured buffer content, which `runStmts` returns directly. -/
def emit (w : World) (s : String) : World :=
  match w.sysStdout with
  | .real => { w with realOut := w.realOut ++ s }
  | .redirected => w

/-! ## The execute_python handler -/

/-- The tool-call argument mapping.  A field is `Option.none` when the key is
absent from the request. -/
structure Arguments where
  code : Option String
  reset : Option Bool
  package : Option String

/-- Python truthiness of the argument dict: an empty mapping is falsy, so
`if not arguments` raises. -/
def Arguments.isEmpty (a : Arguments) : Bool :=
  a.code.isNone && a.reset.isNone && a.package.isNone

def execArgs (code : String) : Arguments :=
  { code := some code, reset := Option.none, package := Option.none }

def optionalField (key : String) (s : String) : List (String × JVal) :=
  if s = "" then [] else [(key, JVal.str s)]

/-- Encoding of `result["result"]`: a list or dict value is kept structured
and serialized by `json.dumps` (which may raise `TypeError`); any other value
is rendered by `repr`, whose string always serializes. -/
def resultField : PyVal → Except PyErr JVal
  | .listV xs => toJson (.listV xs)
  | .dictV kvs => toJson (.dictV kvs)
  | v => .ok (.str (pyRepr v))

/-- One record of `DataFrame.to_dict(orient="records")`, serialized. -/
def dfRecords (cols : List String) : List (List PyVal) → Except PyErr (List JVal)
  | [] => .ok []
  | row :: rest => do
    let fields ← toJsonFields (cols.zip row)
    let others ← dfRecords cols rest
    .ok (JVal.obj fields :: others)

/-- The dataframe-shaped envelope: records, ordered column names, and
`[row_count, column_count]`, serialized by `json.dumps`. -/
def dfEnvelope (cols : List String) (rows : List (List PyVal)) : Except PyErr JVal := do
  let records ← dfRecords cols rows
  .ok (.obj [("type", .str "dataframe"),
             ("data", .arr records),
             ("columns", .arr (cols.map JVal.str)),
             ("shape", .arr [.num (rows.length : Int), .num (cols.length : Int)])])

/-- Classification stage of `execute_python` (server.py lines 117-143): after
a successful statement run, re-evaluate the last line of the stripped code as
a standalone expression against the updated namespace (outside the capture
scope, so its output goes to the current, restored channels), then classify
the value: a DataFrame yields the dataframe envelope as the entire content, a
list or dict is kept structured under `result`, anything else is rendered by
`repr`; a failure of the re-evaluation or of `json.dumps` is caught and
becomes an error envelope. -/
def finishExecute (code : String) (ns1 : Namespace) (out1 : String) (wDone : World) :
    Except String (List Content) × World :=
  let baseFields := optionalField "output" out1 ++ optionalField "errors" ""
  match evalLine (lastLine code) ns1 with
  | (o, .error e) => (.ok [errorEnvelope e], emit wDone o)
  | (o, .ok last_value) =>
    let wEmit := emit wDone o
    match last_value with
    | .dfV cols rows =>
      match dfEnvelope cols rows with
      | .error e => (.ok [errorEnvelope e], wEmit)
      | .ok j => (.ok [Content.json j], wEmit)
    | v =>
      match resultField v with
      | .error e => (.ok [errorEnvelope e], wEmit)
      | .ok j => (.ok [Content.json (.obj (baseFields ++ [("result", j)]))], wEmit)

/-- Statement-run stage of `execute_python` (server.py lines 101-116 and the
`except` at 145-152): redirect both channels into the capture buffers, run
the submitted code, and restore the channels on every exit path, as the
`with` block guarantees; a compile or runtime failure is caught and becomes
an error envelope, keeping the namespace mutations already performed. -/
def runExecute (code : String) (w : World) : Except String (List Content) × World :=
  let saved_out := w.sysStdout
  let saved_err := w.sysStderr
  let wRedir := { w with sysStdout := Chan.redirected, sysStderr := Chan.redirected }
  match compilePy code with
  | .error e =>
    (.ok [errorEnvelope e],
     { wRedir with sysStdout := saved_out, sysStderr := saved_err })
  | .ok stmts =>
    match runStmts stmts wRedir.ns with
    | (ns1, _, some e) =>
      (.ok [errorEnvelope e],
       { wRedir with ns := ns1, sysStdout := saved_out, sysStderr := saved_err })
    | (ns1, out1, Option.none) =>
      finishExecute code ns1 out1
        { wRedir with ns := ns1, sysStdout := saved_out, sysStderr := saved_err }

/-- The `execute_python` branch of `handle_call_tool` (server.py lines
85-152): missing/empty code raises; reset short-circuits, clearing and
re-seeding the namespace and returning the plain confirmation; otherwise the
code runs via `runExecute` / `finishExecute`. -/
def handleExecute (args : Arguments) (w : World) : Except String (List Content) × World :=
  match args.code with
  | Option.none => (.error "Missing code parameter", w)
  | some code =>
    if code = "" then (.error "Missing code parameter", w)
    else if args.reset.getD false then
      (.ok [Content.plain "Python session reset. All variables cleared."],
       { w with ns := initialNamespace })
    else runExecute code w

/-! ## The install_package handler -/

structure SubprocessResult where
  returncode : Int
  stdout : String
  stderr : String

/-- External-collaborator behaviour: the outcome of the bootstrap command,
the outcome of installing a given package, and whether importing a module
succeeds. -/
structure Env where
  bootstrapRun : SubprocessResult
  installRun : String → SubprocessResult
  canImport : String → Bool

def bootstrapCmd : List String := ["uv", "pip", "install", "pip"]

def installCmd (package : String) : List String := ["uv", "pip", "install", package]

def isAllowChar (c : Char) : Bool :=
  c.isAlphanum || c = '.' || c = Char.ofNat 95 || c = '-'

def allowCore (s : String) : Bool :=
  match s.data with
  | [] => false
  | c :: cs => c.isAlphanum && cs.all isAllowChar

/-- The allow-list `re.match("^[A-Za-z0-9][A-Za-z0-9._-]*$", package)`.
Python `$` also matches just before one trailing newline. -/
def matchesAllowList (s : String) : Bool :=
  allowCore s || (strEndsWith s "\n" && allowCore (String.mk s.data.dropLast))

/-- Python `package.split('[')[0]`: the base module name with any extras
suffix stripped. -/
def baseModule (package : String) : String :=
  String.mk ((splitOnChar '[' package.data).headD [])

def importErrorMsg (base : String) : String :=
  "No module named " ++ squote ++ base ++ squote

/-- The `install_package` branch of `handle_call_tool` (server.py lines
154-211): bootstrap the package manager (`check=True` raises on a nonzero
exit), then validate the identifier, then install, then import the base
module into the namespace.  The third component is the list of argv vectors
handed to `subprocess.run`, in order. -/
def handleInstall (package : String) (env : Env) (ns : Namespace) :
    List Content × Namespace × List (List String) :=
  if env.bootstrapRun.returncode ≠ 0 then
    ([Content.json (.obj [("error",
        .str ("Failed to install pip: " ++ env.bootstrapRun.stderr))])],
     ns, [bootstrapCmd])
  else if ¬ matchesAllowList package then
    ([Content.json (.obj [("error", .str ("Invalid package name: " ++ package))])],
     ns, [bootstrapCmd])
  else
    let process := env.installRun package
    let trace := [bootstrapCmd, installCmd package]
    if process.returncode ≠ 0 then
      ([Content.json (.obj [("error",
          .str ("Failed to install package:\n" ++ process.stderr))])], ns, trace)
    else if process.returncode ≠ 0 then
      ([Content.json (.obj [("error",
          .str ("Failed to install package: " ++ process.stderr))])], ns, trace)
    else
      let base := baseModule package
      if env.canImport base then
        ([Content.json (.obj [("success",
            .str ("Successfully installed and imported " ++ package))])],
         nsInsert base (.moduleV base) ns, trace)
      else
        ([Content.json (.obj [("error",
            .str ("Package installed but import failed: " ++ importErrorMsg base))])],
         ns, trace)

/-- The `list_variables` branch: every binding whose name does not start with
an underscore and is not `__builtins__`, rendered by `repr`. -/
def handleListVariables (ns : Namespace) : List Content :=
  let vars := (ns.filter fun kv => !(strStartsWith kv.1 "_") && kv.1 != "__builtins__").map
    fun kv => (kv.1, JVal.str (pyRepr kv.2))
  [Content.json (.obj [("variables", .obj vars)])]

/-- Model of `handle_call_tool`: raise on an empty argument mapping, then dispatch on
the tool name.  `Except.error` models a raised `ValueError` (a protocol-level
failure); `Except.ok` is a returned content list.  The final component is the
list of subprocess invocations the call performed. -/
def handleCallTool (name : String) (args : Arguments) (env : Env) (w : World) :
    Except String (List Content) × World × List (List String) :=
  if args.isEmpty then (.error "Missing arguments", w, [])
  else if name = "execute_python" then
    let (r, w1) := handleExecute args w
    (r, w1, [])
  else if name = "install_package" then
    match args.package with
    | Option.none => (.error "Missing package name", w, [])
    | some package =>
      if package = "" then (.error "Missing package name", w, [])
      else
        let (cs, ns1, trace) := handleInstall package env w.ns
        (.ok cs, { w with ns := ns1 }, trace)
  else if name = "list_variables" then
    (.ok (handleListVariables w.ns), w, [])
  else
    (.error ("Unknown tool: " ++ name), w, [])

/-! ## Concrete defaults for witnesses -/

/-- The world at server start: freshly seeded namespace, channels bound to
the real streams, nothing written. -/
def w0 : World :=
  { ns := initialNamespace, sysStdout := Chan.real, sysStderr := Chan.real, realOut := "" }

def okRun : SubprocessResult := { returncode := 0, stdout := "", stderr := "" }

def defaultEnv : Env :=
  { bootstrapRun := okRun, installRun := fun _ => okRun, canImport := fun _ => true }

def isDataFrame : PyVal → Bool
  | .dfV _ _ => true
  | _ => false

/-- The `isinstance(last_value, (list, dict))` test of the classifier. -/
def isListOrDict : PyVal → Bool
  | .listV _ => true
  | .dictV _ => true
  | _ => false

/-- A content block that is a JSON object carrying a `result` key. -/
def hasResultKey : Content → Bool
  | .json (.obj fields) => fields.any (fun kv => kv.1 = "result")
  | _ => false

/-- A content block that is a JSON object whose first field marks it as the
dataframe-shaped envelope. -/
def isDataFrameEnvelope : Content → Bool
  | .json (.obj (("type", .str "dataframe") :: _)) => true
  | _ => false

/-- A session world in which earlier calls have bound `df` to a 2-by-2
DataFrame with columns `a`, `b`. -/
def wSmallTable : World :=
  { ns := nsInsert "df"
      (PyVal.dfV ["a", "b"] [[PyVal.intV 1, PyVal.intV 2], [PyVal.intV 3, PyVal.intV 4]])
      initialNamespace,
    sysStdout := Chan.real, sysStderr := Chan.real, realOut := "" }

/-- A session world in which `d` is bound to a 1-by-1 DataFrame whose only
cell holds another DataFrame (as `pd.DataFrame({"c": [pd.DataFrame()]})`
builds), an object `json.dumps` cannot serialize. -/
def wDfCell : World :=
  { ns := nsInsert "d" (PyVal.dfV ["c"] [[PyVal.dfV [] []]]) initialNamespace,
    sysStdout := Chan.real, sysStderr := Chan.real, realOut := "" }

/-- A session world in which `xs` is bound to a list whose element is a
DataFrame (as `xs = [pd.DataFrame()]` builds), a list `json.dumps` cannot
serialize. -/
def wListOfDf : World :=
  { ns := nsInsert "xs" (PyVal.listV [PyVal.dfV [] []]) initialNamespace,
    sysStdout := Chan.real, sysStderr := Chan.real, realOut := "" }

/-- A session world in which `xs` is bound to the list `[1, 2]`. -/
def wListOfInts : World :=
  { ns := nsInsert "xs" (PyVal.listV [PyVal.intV 1, PyVal.intV 2]) initialNamespace,
    sysStdout := Chan.real, sysStderr := Chan.real, realOut := "" }

/-! ## Helper lemmas -/

theorem strAppend_nil (s : String) : s ++ "" = s := by
  cases s with
  | mk d => show String.mk (d ++ []) = String.mk d
            rw [List.append_nil]

theorem strNil_append (s : String) : "" ++ s = s := by
  cases s with
  | mk d => rfl

theorem strAppend_assoc (a b c : String) : a ++ b ++ c = a ++ (b ++ c)  := by
  cases a with
  | mk da =>
    cases b with
    | mk db =>
      cases c with
      | mk dc => show String.mk (da ++ db ++ dc) = String.mk (da ++ (db ++ dc))
                 rw [List.append_assoc]

theorem emit_sysStdout (w : World) (s : String) : (emit w s).sysStdout = w.sysStdout := by
  unfold emit
  split <;> rfl

theorem emit_sysStderr (w : World) (s : String) : (emit w s).sysStderr = w.sysStderr := by
  unfold emit
  split <;> rfl

theorem emit_ns (w : World) (s : String) : (emit w s).ns = w.ns := by
  unfold emit
  split <;> rfl

theorem emit_real (w : World) (s : String) (h : w.sysStdout = Chan.real) :
    (emit w s).realOut = w.realOut ++ s := by
  unfold emit
  rw [h]

theorem handleCallTool_reset (w : World) (env : Env) (code : String) (p : Option String)
    (hc : code ≠ "") :
    handleCallTool "execute_python" { code := some code, reset := some true, package := p } env w =
    (.ok [Content.plain "Python session reset. All variables cleared."],
     { w with ns := initialNamespace }, []) := by
  unfold handleCallTool handleExecute
  simp [Arguments.isEmpty, hc]

/-- Claim C1: for every execute request whose statement run succeeds but whose
last non-empty line is not a syntactically valid standalone expression, the
trailing-expression re-evaluation fails, the failure is caught, and the whole
call returns an error envelope holding the formatted trace, even though the
statement run itself succeeded. -/
theorem exec_ok_eval_parse_failure_returns_error_envelope
    (w : World) (code : String) (r : Option Bool) (p : Option String)
    (stmts : List Stmt) (ns1 : Namespace) (out1 : String) (e : PyErr)
    (hc : code ≠ "") (hr : r.getD false = false)
    (hcompile : compilePy code = .ok stmts)
    (hrun : runStmts stmts w.ns = (ns1, out1, Option.none))
    (hparse : parseTopExpr (lastLine code) = .error e) :
    (handleExecute { code := some code, reset := r, package := p } w).1 =
      .ok [errorEnvelope e] := by
  unfold handleExecute runExecute finishExecute
  simp [hc, hr, hcompile, hrun, evalLine, hparse]

/-- Claim C1, witness: `exec("x = 5")` succeeds and binds `x`, but
`eval("x = 5")` is a syntax error, so the call reports an execution error. -/
theorem exec_ok_eval_parse_failure_returns_error_envelope_witness :
    compilePy "x = 5" = .ok [Stmt.assign "x" (Expr.intLit 5)] ∧
    (handleExecute (execArgs "x = 5") w0).1 = .ok [errorEnvelope PyErr.syntaxError] :=
  ⟨rfl, exec_ok_eval_parse_failure_returns_error_envelope w0 "x = 5" Option.none Option.none
    [Stmt.assign "x" (Expr.intLit 5)]
    [("__builtins__", PyVal.moduleV "builtins"), ("pd", PyVal.moduleV "pandas"),
     ("x", PyVal.intV 5)] "" PyErr.syntaxError
    (by decide) rfl rfl rfl rfl⟩

/-- Claim C2, counterexample: with the package manager bootstrap succeeding,
`install_package(package="x; rm -rf")` is rejected with the invalid-name
error envelope, but the rejection is NOT made before any shell invocation:
the fixed bootstrap command has already been invoked, so the call's
subprocess trace is nonempty. -/
theorem install_rejection_after_bootstrap_counterexample :
    handleCallTool "install_package"
      { code := Option.none, reset := Option.none, package := some "x; rm -rf" }
      defaultEnv w0 =
      (.ok [Content.json (.obj [("error", .str "Invalid package name: x; rm -rf")])],
       w0, [["uv", "pip", "install", "pip"]]) ∧
    (handleCallTool "install_package"
      { code := Option.none, reset := Option.none, package := some "x; rm -rf" }
      defaultEnv w0).2.2 ≠ [] :=
  ⟨rfl, by decide⟩

/-- Claim C2, amended: an install request whose package fails the allow-list
is rejected with an error envelope before any shell invocation involving the
package string — the fixed bootstrap command runs first, but no invoked
command carries the package — and `"ok-pkg.1"` passes the allow-list. -/
theorem install_invalid_package_rejected_before_package_invocation
    (env : Env) (w : World) (p : String)
    (hp : p ≠ "") (hm : matchesAllowList p = false) :
    (env.bootstrapRun.returncode = 0 →
      handleCallTool "install_package"
        { code := Option.none, reset := Option.none, package := some p } env w =
        (.ok [Content.json (.obj [("error", .str ("Invalid package name: " ++ p))])],
         w, [bootstrapCmd])) ∧
    (∀ cmd ∈ (handleCallTool "install_package"
        { code := Option.none, reset := Option.none, package := some p } env w).2.2,
      p ∉ cmd) ∧
    matchesAllowList "ok-pkg.1" = true := by
  refine ⟨?_, ?_, by decide⟩
  · intro hb
    unfold handleCallTool handleInstall
    simp [Arguments.isEmpty, hp, hb, hm]
  · intro cmd hcmd hmem
    have htr : (handleCallTool "install_package"
        { code := Option.none, reset := Option.none, package := some p } env w).2.2 =
        [bootstrapCmd] := by
      unfold handleCallTool handleInstall
      by_cases hb : env.bootstrapRun.returncode = 0 <;> simp [Arguments.isEmpty, hp, hb, hm]
    rw [htr] at hcmd
    simp only [List.mem_singleton] at hcmd
    subst hcmd
    unfold bootstrapCmd at hmem
    simp only [List.mem_cons, List.not_mem_nil, or_false] at hmem
    rcases hmem with h | h | h | h <;> rw [h] at hm <;> exact absurd hm (by decide)

/-- Claim C2, witness: the amended statement at `package="x; rm -rf"` with a
succeeding bootstrap. -/
theorem install_invalid_package_rejected_before_package_invocation_witness :
    ("x; rm -rf" : String) ≠ "" ∧ matchesAllowList "x; rm -rf" = false ∧
    (handleCallTool "install_package"
      { code := Option.none, reset := Option.none, package := some "x; rm -rf" }
      defaultEnv w0 =
      (.ok [Content.json (.obj [("error", .str "Invalid package name: x; rm -rf")])],
       w0, [bootstrapCmd])) ∧
    matchesAllowList "ok-pkg.1" = true :=
  ⟨by decide, rfl,
   ((install_invalid_package_rejected_before_package_invocation defaultEnv w0 "x; rm -rf"
      (by decide) rfl).1 rfl),
   (install_invalid_package_rejected_before_package_invocation defaultEnv w0 "x; rm -rf"
      (by decide) rfl).2.2⟩

/-- Claim C3, counterexample: an execute request with `reset = true` and the
code argument absent, and one with `reset = true` and empty code, do not
short-circuit into a reset: the handler raises the missing-code protocol
error before it ever looks at the reset flag. -/
theorem reset_with_missing_code_counterexample :
    handleCallTool "execute_python"
      { code := Option.none, reset := some true, package := Option.none } defaultEnv w0 =
      (.error "Missing code parameter", w0, []) ∧
    handleCallTool "execute_python"
      { code := some "", reset := some true, package := Option.none } defaultEnv w0 =
      (.error "Missing code parameter", w0, []) :=
  ⟨rfl, rfl⟩

/-- Claim C3, amended: for every execute request with `reset = true` and a
non-empty code argument — regardless of the code's content, which is never
run — the call short-circuits: the namespace is re-seeded to the initial
one, a plain confirmation message is the sole content, and the rest of the
world is untouched. -/
theorem reset_with_nonempty_code_short_circuits
    (w : World) (env : Env) (code : String) (p : Option String) (hc : code ≠ "") :
    handleCallTool "execute_python"
      { code := some code, reset := some true, package := p } env w =
      (.ok [Content.plain "Python session reset. All variables cleared."],
       { w with ns := initialNamespace }, []) :=
  handleCallTool_reset w env code p hc

/-- Claim C3, witness: the amended statement at a concrete request whose code
would print and bind variables if it ran. -/
theorem reset_with_nonempty_code_short_circuits_witness :
    handleCallTool "execute_python"
      { code := some "x = 1\nprint(2)", reset := some true, package := Option.none }
      defaultEnv w0 =
      (.ok [Content.plain "Python session reset. All variables cleared."],
       { w0 with ns := initialNamespace }, []) :=
  reset_with_nonempty_code_short_circuits w0 defaultEnv "x = 1\nprint(2)" Option.none
    (by decide)

/-- Claim C5: executing `x = 5` in one call (whose own response is immaterial)
and then `x + 1` in a later call against the world the first call returned
yields the envelope `{"result": "6"}` — the binding created by the first
execution persists in the session namespace and is visible to the second. -/
theorem binding_persists_across_calls :
    (handleCallTool "execute_python" (execArgs "x + 1") defaultEnv
      (handleCallTool "execute_python" (execArgs "x = 5") defaultEnv w0).2.1).1 =
    .ok [Content.json (.obj [("result", .str "6")])] := rfl

theorem finishExecute_sysStdout (code : String) (ns1 : Namespace) (out1 : String)
    (wDone : World) : (finishExecute code ns1 out1 wDone).2.sysStdout = wDone.sysStdout := by
  unfold finishExecute
  repeat' split
  all_goals simp [emit_sysStdout]

theorem finishExecute_sysStderr (code : String) (ns1 : Namespace) (out1 : String)
    (wDone : World) : (finishExecute code ns1 out1 wDone).2.sysStderr = wDone.sysStderr := by
  unfold finishExecute
  repeat' split
  all_goals simp [emit_sysStderr]

theorem runExecute_sysStdout (code : String) (w : World) :
    (runExecute code w).2.sysStdout = w.sysStdout := by
  unfold runExecute
  rcases hcomp : compilePy code with e | stmts
  · simp [hcomp]
  · rcases hrun : runStmts stmts w.ns with ⟨ns1, out1, _ | e⟩
    · simp [hcomp, hrun, finishExecute_sysStdout]
    · simp [hcomp, hrun]

theorem runExecute_sysStderr (code : String) (w : World) :
    (runExecute code w).2.sysStderr = w.sysStderr := by
  unfold runExecute
  rcases hcomp : compilePy code with e | stmts
  · simp [hcomp]
  · rcases hrun : runStmts stmts w.ns with ⟨ns1, out1, _ | e⟩
    · simp [hcomp, hrun, finishExecute_sysStderr]
    · simp [hcomp, hrun]

theorem handleExecute_sysStdout (args : Arguments) (w : World) :
    (handleExecute args w).2.sysStdout = w.sysStdout := by
  unfold handleExecute
  repeat' split
  all_goals (first | rfl | simp [runExecute_sysStdout])

theorem handleExecute_sysStderr (args : Arguments) (w : World) :
    (handleExecute args w).2.sysStderr = w.sysStderr := by
  unfold handleExecute
  repeat' split
  all_goals (first | rfl | simp [runExecute_sysStderr])

/-- Claim C8: an execute call leaves the standard-output and standard-error
channel bindings exactly as it found them, on every exit path — reset,
successful completion, a caught compile or runtime failure, a trailing-eval
failure, a serialization failure, and the raised missing-argument paths. -/
theorem execute_restores_output_channels (args : Arguments) (env : Env) (w : World) :
    (handleCallTool "execute_python" args env w).2.1.sysStdout = w.sysStdout ∧
    (handleCallTool "execute_python" args env w).2.1.sysStderr = w.sysStderr := by
  unfold handleCallTool
  by_cases he : args.isEmpty
  · simp [he]
  · simp [he, handleExecute_sysStdout, handleExecute_sysStderr]

/-- Claim C6: after a reset, every name bound by earlier executions is gone —
executing a bare name other than the seeded `__builtins__` and `pd` fails
with an undefined-name error envelope — while the re-seeded tabular-data
alias is immediately usable: `pd.DataFrame()` succeeds and returns the empty
dataframe envelope. -/
theorem reset_clears_bindings_and_reseeds_pd
    (w : World) (env : Env) (rcode : String) (p : Option String) (hrc : rcode ≠ "")
    (code m : String) (hc : code ≠ "")
    (hparse : compilePy code = .ok [Stmt.exprStmt (Expr.name m)])
    (hm1 : m ≠ "__builtins__") (hm2 : m ≠ "pd") :
    (handleExecute (execArgs code)
      (handleCallTool "execute_python"
        { code := some rcode, reset := some true, package := p } env w).2.1).1 =
      .ok [errorEnvelope (PyErr.nameError m)] ∧
    (handleExecute (execArgs "pd.DataFrame()")
      (handleCallTool "execute_python"
        { code := some rcode, reset := some true, package := p } env w).2.1).1 =
      .ok [Content.json (.obj [("type", .str "dataframe"), ("data", .arr []),
        ("columns", .arr []), ("shape", .arr [.num 0, .num 0])])] := by
  rw [handleCallTool_reset w env rcode p hrc]
  constructor
  · unfold handleExecute runExecute
    simp [execArgs, hc, hparse, runStmts, runStmt, evalExpr, nsLookup,
      initialNamespace, hm1, hm2]
  · rfl

/-- Claim C6, witness: reset a session that had bound `old`, then reference
`y` (undefined-name error) and call `pd.DataFrame()` (usable at once). -/
theorem reset_clears_bindings_and_reseeds_pd_witness :
    compilePy "y" = .ok [Stmt.exprStmt (Expr.name "y")] ∧
    (handleExecute (execArgs "y")
      (handleCallTool "execute_python"
        { code := some "old = 1", reset := some true, package := Option.none }
        defaultEnv w0).2.1).1 =
      .ok [errorEnvelope (PyErr.nameError "y")] ∧
    (handleExecute (execArgs "pd.DataFrame()")
      (handleCallTool "execute_python"
        { code := some "old = 1", reset := some true, package := Option.none }
        defaultEnv w0).2.1).1 =
      .ok [Content.json (.obj [("type", .str "dataframe"), ("data", .arr []),
        ("columns", .arr []), ("shape", .arr [.num 0, .num 0])])] :=
  ⟨rfl,
   (reset_clears_bindings_and_reseeds_pd w0 defaultEnv "old = 1" Option.none (by decide)
      "y" "y" (by decide) rfl (by decide) (by decide)).1,
   (reset_clears_bindings_and_reseeds_pd w0 defaultEnv "old = 1" Option.none (by decide)
      "y" "y" (by decide) rfl (by decide) (by decide)).2⟩

/-- Claim C10: when running the submitted code fails partway through, or the
trailing-expression re-evaluation fails after a successful statement run, the
namespace mutations of the statements that already completed are not rolled
back: the call returns an error envelope, but the handler's resulting world
carries the mutated namespace. -/
theorem execution_failure_keeps_partial_bindings
    (w : World) (code : String) (r : Option Bool) (p : Option String) (stmts : List Stmt)
    (hc : code ≠ "") (hr : r.getD false = false)
    (hcompile : compilePy code = .ok stmts) :
    (∀ ns1 out1 e, runStmts stmts w.ns = (ns1, out1, some e) →
      (handleExecute { code := some code, reset := r, package := p } w).1 =
        .ok [errorEnvelope e] ∧
      (handleExecute { code := some code, reset := r, package := p } w).2.ns = ns1) ∧
    (∀ ns1 out1 o e, runStmts stmts w.ns = (ns1, out1, Option.none) →
      evalLine (lastLine code) ns1 = (o, .error e) →
      (handleExecute { code := some code, reset := r, package := p } w).1 =
        .ok [errorEnvelope e] ∧
      (handleExecute { code := some code, reset := r, package := p } w).2.ns = ns1) := by
  constructor
  · intro ns1 out1 e hrun
    unfold handleExecute runExecute
    constructor <;> simp [hc, hr, hcompile, hrun]
  · intro ns1 out1 o e hrun heval
    unfold handleExecute runExecute finishExecute
    constructor <;> simp [hc, hr, hcompile, hrun, heval, emit_ns]

/-- Claim C10, witness: `x = 7` completes, then `y` raises NameError; the
call reports the error but `x` stays bound, and a subsequent call reading `x`
returns `{"result": "7"}`. -/
theorem execution_failure_keeps_partial_bindings_witness :
    (handleExecute (execArgs "x = 7\ny") w0).1 =
      .ok [errorEnvelope (PyErr.nameError "y")] ∧
    (handleExecute (execArgs "x = 7\ny") w0).2.ns =
      [("__builtins__", PyVal.moduleV "builtins"), ("pd", PyVal.moduleV "pandas"),
       ("x", PyVal.intV 7)] ∧
    (handleExecute (execArgs "x") (handleExecute (execArgs "x = 7\ny") w0).2).1 =
      .ok [Content.json (.obj [("result", .str "7")])] :=
  ⟨((execution_failure_keeps_partial_bindings w0 "x = 7\ny" Option.none Option.none
      [Stmt.assign "x" (Expr.intLit 7), Stmt.exprStmt (Expr.name "y")]
      (by decide) rfl rfl).1
      [("__builtins__", PyVal.moduleV "builtins"), ("pd", PyVal.moduleV "pandas"),
       ("x", PyVal.intV 7)] "" (PyErr.nameError "y") rfl).1,
   ((execution_failure_keeps_partial_bindings w0 "x = 7\ny" Option.none Option.none
      [Stmt.assign "x" (Expr.intLit 7), Stmt.exprStmt (Expr.name "y")]
      (by decide) rfl rfl).1
      [("__builtins__", PyVal.moduleV "builtins"), ("pd", PyVal.moduleV "pandas"),
       ("x", PyVal.intV 7)] "" (PyErr.nameError "y") rfl).2,
   rfl⟩

/-- Claim C7, counterexample: with `xs` bound to `[pd.DataFrame()]`, the call
`execute_python(code="xs")` has a non-tabular final value that is a list, yet
the response is not a structured `result` envelope — `json.dumps` raises on
the DataFrame element, so the call returns an error envelope, which carries
no `result` key at all. -/
theorem structured_result_serialization_counterexample :
    (handleExecute (execArgs "xs") wListOfDf).1 =
      .ok [errorEnvelope
        (PyErr.typeError "Object of type DataFrame is not JSON serializable")] ∧
    hasResultKey (errorEnvelope
        (PyErr.typeError "Object of type DataFrame is not JSON serializable")) = false :=
  ⟨rfl, rfl⟩

/-- Claim C7, amended: for every non-tabular final value of an execute call,
if the value is a list or a mapping whose JSON serialization succeeds it is
kept structured under the `result` key, and any other value is rendered under
`result` as its `repr` text (not its `str` display form); a value whose
serialization fails yields an error envelope instead. -/
theorem result_classification
    (w : World) (code : String) (r : Option Bool) (p : Option String)
    (stmts : List Stmt) (ns1 : Namespace) (out1 o : String) (v : PyVal)
    (hc : code ≠ "") (hr : r.getD false = false)
    (hcompile : compilePy code = .ok stmts)
    (hrun : runStmts stmts w.ns = (ns1, out1, Option.none))
    (heval : evalLine (lastLine code) ns1 = (o, .ok v))
    (hdf : isDataFrame v = false) :
    (∀ j, resultField v = .ok j →
      (handleExecute { code := some code, reset := r, package := p } w).1 =
        .ok [Content.json (.obj (optionalField "output" out1 ++ [("result", j)]))]) ∧
    (isListOrDict v = false →
      (handleExecute { code := some code, reset := r, package := p } w).1 =
        .ok [Content.json (.obj (optionalField "output" out1 ++
          [("result", .str (pyRepr v))]))]) := by
  constructor
  · intro j hres
    unfold handleExecute runExecute finishExecute
    cases v <;> simp_all [optionalField, resultField, isDataFrame]
  · intro hv
    unfold handleExecute runExecute finishExecute
    cases v <;> simp_all [optionalField, resultField, isListOrDict, isDataFrame]

/-- Claim C7, witness: `xs` bound to `[1, 2]` comes back structured as a JSON
array under `result`; the plain value `5` comes back as its repr text. -/
theorem result_classification_witness :
    (handleExecute (execArgs "xs") wListOfInts).1 =
      .ok [Content.json (.obj [("result", .arr [.num 1, .num 2])])] ∧
    (handleExecute (execArgs "5") w0).1 =
      .ok [Content.json (.obj [("result", .str "5")])] :=
  ⟨(result_classification wListOfInts "xs" Option.none Option.none
      [Stmt.exprStmt (Expr.name "xs")] wListOfInts.ns "" ""
      (PyVal.listV [PyVal.intV 1, PyVal.intV 2])
      (by decide) rfl rfl rfl rfl rfl).1 (.arr [.num 1, .num 2]) rfl,
   (result_classification w0 "5" Option.none Option.none
      [Stmt.exprStmt (Expr.intLit 5)] w0.ns "" "" (PyVal.intV 5)
      (by decide) rfl rfl rfl rfl rfl).2 rfl⟩

/-- Claim C4, counterexample: with `d` bound to a 1-row, 1-column DataFrame
whose cell holds another DataFrame, the call `execute_python(code="d")` has a
tabular final value with R = 1, C = 1, yet the response is not the dataframe
envelope: `json.dumps` raises on the nested DataFrame, so the call returns an
error envelope, which is not dataframe-shaped. -/
theorem dataframe_envelope_serialization_counterexample :
    (handleExecute (execArgs "d") wDfCell).1 =
      .ok [errorEnvelope
        (PyErr.typeError "Object of type DataFrame is not JSON serializable")] ∧
    isDataFrameEnvelope (errorEnvelope
        (PyErr.typeError "Object of type DataFrame is not JSON serializable")) = false :=
  ⟨rfl, rfl⟩

/-- Claim C4, amended: for every execute call whose trailing expression
evaluates to a DataFrame with R rows and C named columns and whose cell
values serialize to JSON, the response is exactly the dataframe envelope —
type marker, the R serialized row records in row-major order, the column
names in order, and shape `[R, C]` — replacing the generic envelope entirely
(captured output/errors are omitted). -/
theorem dataframe_result_envelope
    (w : World) (code : String) (r : Option Bool) (p : Option String)
    (stmts : List Stmt) (ns1 : Namespace) (out1 o : String)
    (cols : List String) (rows : List (List PyVal)) (records : List JVal)
    (hc : code ≠ "") (hr : r.getD false = false)
    (hcompile : compilePy code = .ok stmts)
    (hrun : runStmts stmts w.ns = (ns1, out1, Option.none))
    (heval : evalLine (lastLine code) ns1 = (o, .ok (PyVal.dfV cols rows)))
    (hrec : dfRecords cols rows = .ok records) :
    (handleExecute { code := some code, reset := r, package := p } w).1 =
      .ok [Content.json (.obj [("type", .str "dataframe"),
        ("data", .arr records),
        ("columns", .arr (cols.map JVal.str)),
        ("shape", .arr [.num (rows.length : Int), .num (cols.length : Int)])])] := by
  unfold handleExecute runExecute finishExecute
  simp [hc, hr, hcompile, hrun, heval, dfEnvelope, hrec, bind, Except.bind]

/-- Claim C4, witness: a 2-by-2 table with columns `a`, `b` yields records
`[{a: 1, b: 2}, {a: 3, b: 4}]`, columns `["a", "b"]`, and shape `[2, 2]` as
the entire response. -/
theorem dataframe_result_envelope_witness :
    (handleExecute (execArgs "df") wSmallTable).1 =
      .ok [Content.json (.obj [("type", .str "dataframe"),
        ("data", .arr [.obj [("a", .num 1), ("b", .num 2)],
                       .obj [("a", .num 3), ("b", .num 4)]]),
        ("columns", .arr [.str "a", .str "b"]),
        ("shape", .arr [.num 2, .num 2])])] :=
  dataframe_result_envelope wSmallTable "df" Option.none Option.none
    [Stmt.exprStmt (Expr.name "df")] wSmallTable.ns "" ""
    ["a", "b"] [[PyVal.intV 1, PyVal.intV 2], [PyVal.intV 3, PyVal.intV 4]]
    [.obj [("a", .num 1), ("b", .num 2)], .obj [("a", .num 3), ("b", .num 4)]]
    (by decide) rfl rfl rfl rfl rfl

theorem runStmts_append_exprStmt (e : Expr) (ss : List Stmt) :
    ∀ ns ns1 out1, runStmts (ss ++ [Stmt.exprStmt e]) ns = (ns1, out1, Option.none) →
    ∃ pre o v, runStmts ss ns = (ns1, pre, Option.none) ∧
      evalExpr e ns1 = (o, .ok v) ∧ out1 = pre ++ o := by
  induction ss with
  | nil =>
    intro ns ns1 out1 h
    rcases hev : evalExpr e ns with ⟨o, r⟩
    rcases r with err | v
    · simp [runStmts, runStmt, hev] at h
    · simp only [List.nil_append, runStmts, runStmt, hev, Prod.mk.injEq] at h
      obtain ⟨h1, h2, -⟩ := h
      subst h1
      refine ⟨"", o, v, rfl, hev, ?_⟩
      rw [← h2, strAppend_nil, strNil_append]
  | cons s tail ih =>
    intro ns ns1 out1 h
    rcases hs : runStmt s ns with ⟨nsA, oA, errA⟩
    rcases errA with _ | err
    · rcases hrt : runStmts (tail ++ [Stmt.exprStmt e]) nsA with ⟨nsB, oB, eB⟩
      simp only [List.cons_append, runStmts, hs, List.append_eq, hrt, Prod.mk.injEq] at h
      obtain ⟨h1, h2, h3⟩ := h
      subst h1
      subst h3
      obtain ⟨pre, o, v, hpre, hev, hout⟩ := ih nsA _ oB hrt
      refine ⟨oA ++ pre, o, v, ?_, hev, ?_⟩
      · simp only [runStmts, hs, hpre]
      · rw [← h2, hout, strAppend_assoc]
    · simp [runStmts, hs] at h

/-- Claim C9: when the last non-empty line of the submitted code is a valid
standalone expression, it runs twice — once as the final statement of the
captured run (its output is the tail of the captured buffer) and once as the
trailing-expression re-evaluation, which runs after the channels are
restored: its output is appended to the real standard-output stream and the
envelope's `output` field is built from the captured buffer alone. -/
theorem trailing_expression_runs_twice_outside_capture
    (w : World) (code : String) (r : Option Bool) (p : Option String)
    (ss : List Stmt) (e : Expr) (ns1 : Namespace) (out1 o : String) (v : PyVal)
    (hc : code ≠ "") (hr : r.getD false = false)
    (hch : w.sysStdout = Chan.real)
    (hcompile : compilePy code = .ok (ss ++ [Stmt.exprStmt e]))
    (hrun : runStmts (ss ++ [Stmt.exprStmt e]) w.ns = (ns1, out1, Option.none))
    (hlast : parseTopExpr (lastLine code) = .ok e)
    (heval : evalExpr e ns1 = (o, .ok v)) :
    (∃ pre, out1 = pre ++ o) ∧
    (handleExecute { code := some code, reset := r, package := p } w).2.realOut =
      w.realOut ++ o ∧
    (∀ j, isDataFrame v = false → resultField v = .ok j →
      (handleExecute { code := some code, reset := r, package := p } w).1 =
        .ok [Content.json (.obj (optionalField "output" out1 ++ [("result", j)]))]) := by
  obtain ⟨pre, o2, v2, hpre, hev2, hout⟩ := runStmts_append_exprStmt e ss w.ns ns1 out1 hrun
  rw [heval] at hev2
  simp only [Prod.mk.injEq, Except.ok.injEq] at hev2
  obtain ⟨ho2, hv2⟩ := hev2
  subst ho2
  subst hv2
  refine ⟨⟨pre, hout⟩, ?_, ?_⟩
  · unfold handleExecute runExecute finishExecute
    simp only [hc, hr, hcompile, hrun, evalLine, hlast, heval]
    cases v <;> simp [hc, hr, emit, hch] <;> split <;> simp
  · intro j hdf hres
    unfold handleExecute runExecute finishExecute
    cases v <;>
      simp_all [optionalField, resultField, isDataFrame, evalLine, hlast, heval]

/-- Claim C9, witness: `execute_python(code="print(1)")` captures one copy of
the printed text into the envelope's `output` field, and the re-evaluation
prints it a second time to the real standard-output stream, outside the
capture. -/
theorem trailing_expression_runs_twice_outside_capture_witness :
    (handleExecute (execArgs "print(1)") w0).2.realOut = "1\n" ∧
    (handleExecute (execArgs "print(1)") w0).1 =
      .ok [Content.json (.obj [("output", .str "1\n"), ("result", .str "None")])] :=
  ⟨(trailing_expression_runs_twice_outside_capture w0 "print(1)" Option.none Option.none
      [] (Expr.printCall (Expr.intLit 1)) initialNamespace "1\n" "1\n" PyVal.noneV
      (by decide) rfl rfl rfl rfl rfl rfl).2.1,
   (trailing_expression_runs_twice_outside_capture w0 "print(1)" Option.none Option.none
      [] (Expr.printCall (Expr.intLit 1)) initialNamespace "1\n" "1\n" PyVal.noneV
      (by decide) rfl rfl rfl rfl rfl rfl).2.2 (.str "None") rfl rfl⟩
